import Mathlib

set_option autoImplicit false

/-
Shallow embedding of `src/main.py`: a FastAPI application bootstrap that
adds a CORS middleware, tries to import and mount `Controllers.TestController`
(falling back to a diagnostic router on failure), exposes three inline
endpoints (`/`, `/swagger`, `/health`), wraps startup/shutdown in a lifespan
context manager, and reads the listen port from the `PORT` environment
variable.
-/

namespace Backend

/-- Invocation context of a single HTTP request: everything that could vary
between two calls of a handler — request headers, query parameters, request
body — plus the process environment visible at request time. The three inline
handlers in `main.py` take no parameters and read no globals, so they consume
none of these fields. -/
structure RequestCtx where
  headers : List (String × String)
  queryParams : List (String × String)
  body : String
  env : List (String × String)

/-- JSON-object bodies in `main.py` map string keys to string values only, so
a payload is a string-keyed association list, a plain text body, or empty. -/
inductive Payload where
  | jsonObj (obj : List (String × String))
  | text (s : String)
  | empty
  deriving DecidableEq

/-- An HTTP response as seen by the client: status code, body payload, and
the `Location` header when the response is a redirect. -/
structure Response where
  status : Nat
  payload : Payload
  location : Option String
  deriving DecidableEq

/-- What a route handler produces when invoked: a JSON dict (FastAPI renders
it with status 200), a `RedirectResponse`, or an uncaught Python exception
carrying its rendered message. -/
inductive HandlerResult where
  | json (obj : List (String × String))
  | redirect (url : String)
  | raised (errText : String)
  deriving DecidableEq

/-- How the framework turns a handler outcome into the client-visible
response: a returned dict becomes a 200 JSON response; `RedirectResponse`
defaults to status 307 with the `Location` header set (Starlette
`RedirectResponse` default `status_code=307`); an exception that escapes the
handler is caught by Starlette's `ServerErrorMiddleware`, which sends a plain
text 500 `Internal Server Error` response. -/
def render : HandlerResult → Response
  | HandlerResult.json obj => { status := 200, payload := Payload.jsonObj obj, location := none }
  | HandlerResult.redirect url => { status := 307, payload := Payload.empty, location := some url }
  | HandlerResult.raised _ =>
      { status := 500, payload := Payload.text "Internal Server Error", location := none }

/-- A mounted route: full path, HTTP method, handler. -/
structure Route where
  path : String
  method : String
  handler : RequestCtx → HandlerResult

/-- `fastapi.APIRouter`: a mount path applied in front of every route
(`APIRouter(prefix=...)`), tags, and the routes registered on it. -/
structure APIRouter where
  mountPath : String
  tags : List String
  routes : List Route

/-- CORS middleware configuration, `main.py` lines 36-42. -/
structure CORSPolicy where
  allow_origins : List String
  allow_credentials : Bool
  allow_methods : List String
  allow_headers : List String

/-- A registered middleware entry. `main.py` registers only CORS. -/
inductive Middleware where
  | cors (policy : CORSPolicy)

/-- The application instance: static metadata, the middleware stack, and the
ordered route table (FastAPI matches the first registered route). -/
structure App where
  title : String
  version : String
  middleware : List Middleware
  routes : List Route

/-- Starlette's origin check for `CORSMiddleware`: a request origin is
accepted when the configured origins include the wildcard or the origin
itself. -/
def corsAllowsOrigin (p : CORSPolicy) (origin : String) : Bool :=
  p.allow_origins.contains "*" || p.allow_origins.contains origin

/-- Method check of the CORS preflight: allowed when configured with the
wildcard or listed explicitly. -/
def corsAllowsMethod (p : CORSPolicy) (m : String) : Bool :=
  p.allow_methods.contains "*" || p.allow_methods.contains m

/-- Header check of the CORS preflight: allowed when configured with the
wildcard or listed explicitly. -/
def corsAllowsHeader (p : CORSPolicy) (hd : String) : Bool :=
  p.allow_headers.contains "*" || p.allow_headers.contains hd

/-- The CORS configuration passed to `app.add_middleware` in `main.py`:
`allow_origins=["*"], allow_credentials=True, allow_methods=["*"],
allow_headers=["*"]`. -/
def corsConfig : CORSPolicy :=
  { allow_origins := ["*"], allow_credentials := true,
    allow_methods := ["*"], allow_headers := ["*"] }

/-- Handler of `GET /` (`main.py` lines 63-70): returns a constant dict. -/
def root (_ : RequestCtx) : HandlerResult :=
  HandlerResult.json
    [("message", "Backend API is running"),
     ("status", "ok"),
     ("swagger", "/docs"),
     ("api", "/api/test")]

/-- Handler of `GET /swagger` (`main.py` lines 72-76): returns
`RedirectResponse(url="/docs")`, ignoring the request entirely. -/
def swagger_redirect (_ : RequestCtx) : HandlerResult :=
  HandlerResult.redirect "/docs"

/-- Handler of `GET /health` (`main.py` lines 78-84): returns a constant
dict. -/
def health (_ : RequestCtx) : HandlerResult :=
  HandlerResult.json
    [("status", "healthy"),
     ("service", "Backend API")]

/-- The module-level binding of the name `e` at the time a request reaches the
fallback handler. `except Exception as e:` deletes the binding of `e` when the
except clause exits (Python language reference 8.4: the clause body is wrapped
in `try: ... finally: del e`), and `error_endpoint` reads `e` as a module
global with late lookup, so by the time any request arrives the name is
unbound. -/
def moduleBinding_e : Option String := none

/-- Handler of the fallback diagnostic route (`main.py` lines 54-60). The
dict literal evaluates `str(e)` before `traceback.format_exc()`; `e` is looked
up in the module globals at call time. When the lookup fails the handler
raises `NameError`; had it succeeded, `traceback.format_exc()` with no active
exception would render the text `NoneType: None` followed by a newline. -/
def error_endpoint (_ : RequestCtx) : HandlerResult :=
  match moduleBinding_e with
  | none => HandlerResult.raised "NameError: name e is not defined"
  | some details =>
      HandlerResult.json
        [("error", "Failed to load TestController"),
         ("details", details),
         ("traceback", "NoneType: None\n")]

/-- `APIRouter(prefix="/api/test", tags=["test"])` built in the except branch
(`main.py` lines 52-54), carrying the single route `GET /`. -/
def fallbackRouter : APIRouter :=
  { mountPath := "/api/test", tags := ["test"],
    routes := [{ path := "/", method := "GET", handler := error_endpoint }] }

/-- A raised Python exception: whether its class derives from `Exception`
(as opposed to deriving only from `BaseException`, like `KeyboardInterrupt`,
`SystemExit` and `GeneratorExit`), and its message. `except Exception`
catches it only in the first case. -/
structure PyExn where
  derivesException : Bool
  msg : String
  deriving DecidableEq

/-- What executing `from Controllers.TestController import router` followed by
`app.include_router(router)` does: either it produces a router, or it raises
some exception. -/
inductive ImportBehavior where
  | returnsRouter (r : APIRouter)
  | raises (x : PyExn)

/-- `app.include_router(r)`: appends every route of `r` to the application
route table, with the router's own path prefix applied in front of each route
path. -/
def include_router (a : App) (r : APIRouter) : App :=
  { a with routes := a.routes ++ r.routes.map (fun rt => { rt with path := r.mountPath ++ rt.path }) }

/-- `FastAPI(title="Backend API", version="1.0.0", lifespan=lifespan)`
followed by `app.add_middleware(CORSMiddleware, ...)` (`main.py` lines
33-42): the application before any router or route is registered. -/
def baseApp : App :=
  { title := "Backend API", version := "1.0.0",
    middleware := [Middleware.cors corsConfig], routes := [] }

/-- The three inline routes of `main.py` lines 63-84, in source order. -/
def inlineRoutes : List Route :=
  [{ path := "/", method := "GET", handler := root },
   { path := "/swagger", method := "GET", handler := swagger_redirect },
   { path := "/health", method := "GET", handler := health }]

/-- Registration of the three inline endpoints (`main.py` lines 63-84),
executed after the try/except block, in source order. -/
def addInlineEndpoints (a : App) : App :=
  { a with routes := a.routes ++ inlineRoutes }

/-- Module execution of `main.py` lines 33-84, parametrised by what
the import/mount of `Controllers.TestController` does. The try/except catches
only exceptions deriving from `Exception`; in that case the fallback router
is mounted instead. An exception deriving only from `BaseException`
propagates out of the module body and startup fails with it. -/
def buildApp (imp : ImportBehavior) : Except PyExn App :=
  match imp with
  | ImportBehavior.returnsRouter r =>
      Except.ok (addInlineEndpoints (include_router baseApp r))
  | ImportBehavior.raises x =>
      if x.derivesException then
        Except.ok (addInlineEndpoints (include_router baseApp fallbackRouter))
      else
        Except.error x

/-- The application built when the import of `Controllers.TestController`
raises an `Exception`-derived error: fallback router mounted at `/api/test`,
then the three inline endpoints. -/
def appOnFailure : App :=
  addInlineEndpoints (include_router baseApp fallbackRouter)

/-- Modelled from the spec: `Controllers/TestController` is not part of the
provided source; the spec fixes only that the external router is mounted "at a
fixed path prefix (conceptually `/api/test`)". Its route set stays abstract as
a parameter. -/
def specTestRouter (rts : List Route) : APIRouter :=
  { mountPath := "/api/test", tags := ["test"], routes := rts }

/-- The two ways startup can go per the spec: the external module loads,
defining some routes under its `/api/test` prefix, or it raises during the
load/mount step. -/
inductive LoadScenario where
  | loads (rts : List Route)
  | raisesDuringLoad (x : PyExn)

/-- Import behavior corresponding to a load scenario. -/
def scenarioImport : LoadScenario → ImportBehavior
  | LoadScenario.loads rts => ImportBehavior.returnsRouter (specTestRouter rts)
  | LoadScenario.raisesDuringLoad x => ImportBehavior.raises x

/-- Route dispatch for a GET request with an exact path: FastAPI matches the
first registered route with that path and method, runs its handler, and
renders the outcome. `none` when no route matches. -/
def handleGET (a : App) (path : String) (req : RequestCtx) : Option Response :=
  (a.routes.find? (fun r => r.path == path && r.method == "GET")).map
    (fun r => render (r.handler req))

/-- How the serve phase of the lifespan generator ends: the runtime either
closes it normally at shutdown or throws `asyncio.CancelledError` into it. -/
inductive ResumeKind where
  | normal
  | cancelled
  deriving DecidableEq

/-- Result of the lifespan wrapper: it either completes, or re-raises the
`CancelledError` to the surrounding runtime. -/
inductive LifespanOutcome where
  | completed
  | reraisedCancelled
  deriving DecidableEq

/-- The `lifespan` context manager (`main.py` lines 18-31): print the startup
line, yield, and on resumption run
`except asyncio.CancelledError: print(...); raise` followed by
`finally: print("Shutting down Backend API...")`. Returns the ordered log
output and whether the cancellation was re-raised. -/
def lifespanRun (r : ResumeKind) : List String × LifespanOutcome :=
  let startupLog := ["Starting Backend API..."]
  let (exceptLog, outcome) :=
    match r with
    | ResumeKind.normal => ([], LifespanOutcome.completed)
    | ResumeKind.cancelled =>
        (["Application shutdown requested"], LifespanOutcome.reraisedCancelled)
  let finallyLog := ["Shutting down Backend API..."]
  (startupLog ++ exceptLog ++ finallyLog, outcome)

/-- Rejects a double underscore anywhere in the character list, as Python
`int()` does inside a numeric literal. -/
def noDoubleUnderscore : List Char → Bool
  | [] => true
  | [_] => true
  | a :: b :: rest => !(a == '_' && b == '_') && noDoubleUnderscore (b :: rest)

/-- Decimal value of a digit list. -/
def digitsVal (cs : List Char) : Nat :=
  cs.foldl (fun n c => 10 * n + (c.toNat - Char.toNat '0')) 0

/-- Python `str.strip()` over the character list: drop whitespace from both
ends. -/
def pyStrip (cs : List Char) : List Char :=
  ((cs.dropWhile Char.isWhitespace).reverse.dropWhile Char.isWhitespace).reverse

/-- Python `int(s)` for a string argument: strips surrounding whitespace,
accepts one optional sign, then a nonempty run of decimal digits with
optional single underscores between digits; anything else raises
`ValueError`. -/
def pyIntOfString (s : String) : Option Int :=
  let stripped := pyStrip s.toList
  let (sgn, cs) :=
    match stripped with
    | '-' :: rest => ((-1 : Int), rest)
    | '+' :: rest => ((1 : Int), rest)
    | rest => ((1 : Int), rest)
  if cs.isEmpty then none
  else if !(cs.all fun c => c.isDigit || c == '_') then none
  else if cs.head? == some '_' || cs.getLast? == some '_' then none
  else if !noDoubleUnderscore cs then none
  else some (sgn * Int.ofNat (digitsVal (cs.filter Char.isDigit)))

/-- `os.getenv(k)` over an explicit environment. -/
def os_getenv (env : List (String × String)) (k : String) : Option String :=
  (env.find? (fun p => p.1 == k)).map (fun p => p.2)

/-- `port = int(os.getenv("PORT", 8000))` (`main.py` line 89): when `PORT` is
unset, `os.getenv` returns the integer default `8000` and `int(8000)` is
`8000`; when `PORT` is set, `int` is applied to its string value and raises
`ValueError` if it does not parse. -/
def startupPort (env : List (String × String)) : Except String Int :=
  match os_getenv env "PORT" with
  | none => Except.ok 8000
  | some s =>
      match pyIntOfString s with
      | some n => Except.ok n
      | none => Except.error ("ValueError: invalid literal for int with base 10: " ++ s)

/-- A concrete request context used to instantiate universally quantified
theorems. -/
def sampleRequest : RequestCtx :=
  { headers := [], queryParams := [], body := "", env := [] }

/-- A second, different request context (different headers, query, body and
environment), to instantiate determinism statements at two distinct
invocations. -/
def sampleRequest2 : RequestCtx :=
  { headers := [("x-custom", "1")], queryParams := [("q", "v")], body := "b",
    env := [("PORT", "9090")] }

/-- A concrete route standing for a route that the external
`Controllers.TestController` module could define. -/
def demoRoute : Route :=
  { path := "/ping", method := "GET", handler := fun _ => HandlerResult.json [("pong", "true")] }

/-- For any path suffix, the full path of a route mounted under `/api/test`
is never equal to a path shorter than the prefix itself. -/
theorem mountedPath_beq_false (p t : String) (ht : t.length < 9) :
    (("/api/test" ++ p) == t) = false := by
  refine beq_eq_false_iff_ne.mpr ?_
  intro heq
  have hl : ("/api/test" ++ p).length = t.length := congrArg String.length heq
  rw [String.length_append] at hl
  have h9 : ("/api/test" : String).length = 9 := rfl
  rw [h9] at hl
  omega

/-- Dispatch on a path shorter than `/api/test` never selects a route of a
router mounted at `/api/test`. -/
theorem find?_mounted_none (R : APIRouter) (hR : R.mountPath = "/api/test")
    (t : String) (ht : t.length < 9) :
    (R.routes.map (fun rt => { rt with path := R.mountPath ++ rt.path })).find?
      (fun r => r.path == t && r.method == "GET") = none := by
  rw [hR]
  refine List.find?_eq_none.mpr ?_
  intro r hr
  rcases List.mem_map.mp hr with ⟨rt, _, rfl⟩
  simp [mountedPath_beq_false rt.path t ht]

/-- On a path shorter than the `/api/test` prefix, dispatch in the built
application reduces to dispatch over the three inline routes, whichever
router was mounted at `/api/test`. -/
theorem handleGET_built (R : APIRouter) (hR : R.mountPath = "/api/test")
    (t : String) (ht : t.length < 9) (req : RequestCtx) :
    handleGET (addInlineEndpoints (include_router baseApp R)) t req =
      (inlineRoutes.find? (fun r => r.path == t && r.method == "GET")).map
        (fun r => render (r.handler req)) := by
  show (((((List.nil : List Route) ++
        R.routes.map fun rt : Route => ({ rt with path := R.mountPath ++ rt.path } : Route))
      ++ inlineRoutes).find? (fun r : Route => r.path == t && r.method == "GET")).map
      (fun r : Route => render (r.handler req))) = _
  rw [List.nil_append, List.find?_append, find?_mounted_none R hR t ht, Option.none_or]

/-- Whenever startup completes in one of the two load scenarios, the
application is the base application with some router of mount path
`/api/test` included, followed by the three inline endpoints. -/
theorem buildApp_scenario (sc : LoadScenario) (a : App)
    (h : buildApp (scenarioImport sc) = Except.ok a) :
    ∃ R : APIRouter, R.mountPath = "/api/test" ∧
      a = addInlineEndpoints (include_router baseApp R) := by
  cases sc with
  | loads rts =>
      refine ⟨specTestRouter rts, rfl, ?_⟩
      injection h with h2
      exact h2.symm
  | raisesDuringLoad x =>
      rcases x with ⟨b, m⟩
      cases b with
      | true =>
          refine ⟨fallbackRouter, rfl, ?_⟩
          simp only [buildApp, scenarioImport] at h
          injection h with h2
          exact h2.symm
      | false =>
          simp [buildApp, scenarioImport] at h

/-- Claim C1: the claim says that after a router-load failure, `GET /api/test/`
returns a payload with exactly the keys `error`, `details`, `traceback`,
where `details` is the load-time error message and `traceback` its stack
trace. The code cannot do this: the handler reads the module global `e`, but
Python deleted that binding when the `except Exception as e` clause ended, so
every request to the fallback endpoint raises `NameError` and the client
receives a plain-text HTTP 500 `Internal Server Error` instead of the
diagnostic payload. This theorem evaluates the code at the failing input:
an import failure at startup, then one request to `/api/test/`. -/
theorem c1_fallback_returns_500_not_payload :
    buildApp (ImportBehavior.raises
        { derivesException := true, msg := "No module named Controllers" }) =
      Except.ok appOnFailure ∧
    error_endpoint sampleRequest =
      HandlerResult.raised "NameError: name e is not defined" ∧
    handleGET appOnFailure "/api/test/" sampleRequest =
      some { status := 500, payload := Payload.text "Internal Server Error",
             location := none } :=
  ⟨rfl, rfl, rfl⟩

/-- Claim C2 counterexample: with `PORT` set to the unparsable string `abc`,
`int(os.getenv("PORT", 8000))` raises `ValueError` — startup fails instead of
defaulting to 8000 as the claim states. -/
theorem c2_unparsable_port_crashes :
    startupPort [("PORT", "abc")] =
      Except.error "ValueError: invalid literal for int with base 10: abc" ∧
    startupPort [("PORT", "abc")] ≠ Except.ok 8000 := by
  refine ⟨rfl, ?_⟩
  intro h
  have h2 : (Except.error "ValueError: invalid literal for int with base 10: abc" :
      Except String Int) = Except.ok 8000 := h
  exact Except.noConfusion h2

/-- Claim C2 amended: the listen port is the integer value of `PORT` when it is set
and parses as a Python integer literal; it is 8000 when `PORT` is absent; and
when `PORT` is set to a string that does not parse as an integer, startup
raises `ValueError` and fails rather than defaulting to 8000. -/
theorem c2_port_resolution (env : List (String × String)) :
    (os_getenv env "PORT" = none → startupPort env = Except.ok 8000) ∧
    (∀ s n, os_getenv env "PORT" = some s → pyIntOfString s = some n →
      startupPort env = Except.ok n) ∧
    (∀ s, os_getenv env "PORT" = some s → pyIntOfString s = none →
      startupPort env =
        Except.error ("ValueError: invalid literal for int with base 10: " ++ s)) := by
  refine ⟨?_, ?_, ?_⟩
  · intro h
    simp [startupPort, h]
  · intro s n hs hn
    simp [startupPort, hs, hn]
  · intro s hs hn
    simp [startupPort, hs, hn]

/-- Claim C2 witness: with `PORT=9090` the port resolves to 9090. -/
theorem c2_port_resolution_witness :
    startupPort [("PORT", "9090")] = Except.ok 9090 :=
  (c2_port_resolution [("PORT", "9090")]).2.1 "9090" 9090 rfl rfl

/-- Claim C3 counterexample: not every possible exception is caught. The except
clause is `except Exception`; an exception deriving only from
`BaseException` — for instance `KeyboardInterrupt` delivered during
the import — propagates out of the module body, so startup does crash. -/
theorem c3_baseException_crashes_startup :
    buildApp (ImportBehavior.raises
        { derivesException := false, msg := "KeyboardInterrupt" }) =
      Except.error { derivesException := false, msg := "KeyboardInterrupt" } :=
  rfl

/-- Claim C3 amended: for every exception deriving from `Exception` raised
while importing or mounting the external router, the bootstrap catches it and
completes startup — the application holds the fallback route at `/api/test/`
plus the three inline endpoints, and `/` and `/health` answer normally —
while `BaseException`-only exceptions (`KeyboardInterrupt`, `SystemExit`)
still propagate and abort startup. -/
theorem c3_exception_isolated (x : PyExn) (hx : x.derivesException = true)
    (req : RequestCtx) :
    buildApp (ImportBehavior.raises x) = Except.ok appOnFailure ∧
    appOnFailure.routes.map Route.path = ["/api/test/", "/", "/swagger", "/health"] ∧
    handleGET appOnFailure "/" req =
      some { status := 200,
             payload := Payload.jsonObj
               [("message", "Backend API is running"), ("status", "ok"),
                ("swagger", "/docs"), ("api", "/api/test")],
             location := none } ∧
    handleGET appOnFailure "/health" req =
      some { status := 200,
             payload := Payload.jsonObj
               [("status", "healthy"), ("service", "Backend API")],
             location := none } := by
  refine ⟨?_, rfl, rfl, rfl⟩
  rcases x with ⟨b, m⟩
  cases hx
  rfl

/-- Claim C3 witness: a concrete `Exception`-derived failure completes startup. -/
theorem c3_exception_isolated_witness :
    buildApp (ImportBehavior.raises { derivesException := true, msg := "boom" }) =
      Except.ok appOnFailure :=
  (c3_exception_isolated { derivesException := true, msg := "boom" } rfl sampleRequest).1

/-- Claim C9: on the normal exit path the lifespan wrapper logs startup then the
shutdown line, completing; on the cancellation path it logs startup, then
that cancellation was observed, then the shutdown line (the `finally` block
runs before the exception leaves the wrapper, hence before the stopped state
is reached), and it re-raises the `CancelledError` instead of swallowing
it. -/
theorem c9_lifespan_logs_and_reraises :
    lifespanRun ResumeKind.normal =
      (["Starting Backend API...", "Shutting down Backend API..."],
       LifespanOutcome.completed) ∧
    lifespanRun ResumeKind.cancelled =
      (["Starting Backend API...", "Application shutdown requested",
        "Shutting down Backend API..."],
       LifespanOutcome.reraisedCancelled) :=
  ⟨rfl, rfl⟩

/-- Claim C4: in both startup outcomes — external router loaded, or failed with an
`Exception`-derived error — `GET /health` returns HTTP 200 with `status` the
literal `healthy` and `service` the literal `Backend API`. -/
theorem c4_health_always_healthy (sc : LoadScenario) (a : App)
    (h : buildApp (scenarioImport sc) = Except.ok a) (req : RequestCtx) :
    handleGET a "/health" req =
      some { status := 200,
             payload := Payload.jsonObj
               [("status", "healthy"), ("service", "Backend API")],
             location := none } := by
  rcases buildApp_scenario sc a h with ⟨R, hR, rfl⟩
  rw [handleGET_built R hR "/health" (by decide) req]
  rfl

/-- Claim C4 witness: the health response after a concrete load failure. -/
theorem c4_health_always_healthy_witness :
    handleGET appOnFailure "/health" sampleRequest =
      some { status := 200,
             payload := Payload.jsonObj
               [("status", "healthy"), ("service", "Backend API")],
             location := none } :=
  c4_health_always_healthy
    (LoadScenario.raisesDuringLoad { derivesException := true, msg := "boom" })
    appOnFailure rfl sampleRequest

/-- Claim C5: in both startup outcomes, `GET /` returns HTTP 200 with exactly the
keys `message`, `status`, `swagger`, `api` in that order, where `status` is
the literal `ok`, `swagger` is `/docs` and `api` is `/api/test`. -/
theorem c5_root_status_ok (sc : LoadScenario) (a : App)
    (h : buildApp (scenarioImport sc) = Except.ok a) (req : RequestCtx) :
    handleGET a "/" req =
      some { status := 200,
             payload := Payload.jsonObj
               [("message", "Backend API is running"), ("status", "ok"),
                ("swagger", "/docs"), ("api", "/api/test")],
             location := none } ∧
    ([("message", "Backend API is running"), ("status", "ok"),
      ("swagger", "/docs"), ("api", "/api/test")].map Prod.fst) =
      ["message", "status", "swagger", "api"] := by
  refine ⟨?_, rfl⟩
  rcases buildApp_scenario sc a h with ⟨R, hR, rfl⟩
  rw [handleGET_built R hR "/" (by decide) req]
  rfl

/-- Claim C5 witness: the root response after a concrete load failure. -/
theorem c5_root_status_ok_witness :
    handleGET appOnFailure "/" sampleRequest =
      some { status := 200,
             payload := Payload.jsonObj
               [("message", "Backend API is running"), ("status", "ok"),
                ("swagger", "/docs"), ("api", "/api/test")],
             location := none } :=
  (c5_root_status_ok
    (LoadScenario.raisesDuringLoad { derivesException := true, msg := "boom" })
    appOnFailure rfl sampleRequest).1

/-- Claim C6: in both startup outcomes, `GET /swagger` returns an HTTP redirect —
status 307, one of the two codes (302, 307) the claim allows — whose
`Location` target is `/docs`, and the response is identical for any two
request contexts, so neither the request body nor the query parameters are
consulted. -/
theorem c6_swagger_redirects_to_docs (sc : LoadScenario) (a : App)
    (h : buildApp (scenarioImport sc) = Except.ok a) (req otherReq : RequestCtx) :
    handleGET a "/swagger" req =
      some { status := 307, payload := Payload.empty, location := some "/docs" } ∧
    handleGET a "/swagger" req = handleGET a "/swagger" otherReq := by
  rcases buildApp_scenario sc a h with ⟨R, hR, rfl⟩
  rw [handleGET_built R hR "/swagger" (by decide) req,
    handleGET_built R hR "/swagger" (by decide) otherReq]
  exact ⟨rfl, rfl⟩

/-- Claim C6 witness: the swagger redirect after a concrete load failure, at two
distinct request contexts. -/
theorem c6_swagger_redirects_to_docs_witness :
    handleGET appOnFailure "/swagger" sampleRequest =
      some { status := 307, payload := Payload.empty, location := some "/docs" } :=
  (c6_swagger_redirects_to_docs
    (LoadScenario.raisesDuringLoad { derivesException := true, msg := "boom" })
    appOnFailure rfl sampleRequest sampleRequest2).1

/-- Claim C7: the router registration step mounts a router at the fixed prefix
`/api/test` in both outcomes: when the external module loads, every route it
defines is reachable at `/api/test` plus its own path (the prefix itself is
spec-modelled, since `Controllers/TestController` is not in the provided
source); when it raises an `Exception`-derived error, the diagnostic fallback
route is mounted at `/api/test/`. -/
theorem c7_router_mounted_at_api_test :
    (∀ rts a, buildApp (scenarioImport (LoadScenario.loads rts)) = Except.ok a →
      ∀ rt ∈ rts, ({ rt with path := "/api/test" ++ rt.path } : Route) ∈ a.routes) ∧
    (∀ x : PyExn, x.derivesException = true → ∀ a,
      buildApp (ImportBehavior.raises x) = Except.ok a →
      ({ path := "/api/test" ++ "/", method := "GET",
         handler := error_endpoint } : Route) ∈ a.routes) := by
  constructor
  · intro rts a h rt hrt
    injection h with h2
    rw [← h2]
    exact List.mem_append_left inlineRoutes (List.mem_map_of_mem _ hrt)
  · intro x hx a h
    rcases x with ⟨b, m⟩
    cases hx
    injection h with h2
    rw [← h2]
    exact List.mem_append_left inlineRoutes (List.Mem.head _)

/-- Claim C7 witness: a concrete external route surfaces under `/api/test`. -/
theorem c7_router_mounted_at_api_test_witness :
    ({ demoRoute with path := "/api/test" ++ demoRoute.path } : Route) ∈
      (addInlineEndpoints (include_router baseApp (specTestRouter [demoRoute]))).routes :=
  c7_router_mounted_at_api_test.1 [demoRoute]
    (addInlineEndpoints (include_router baseApp (specTestRouter [demoRoute]))) rfl
    demoRoute (List.Mem.head _)

/-- Claim C8: in both startup outcomes the application has exactly one middleware
entry — the CORS policy with wildcard origins, credentials allowed, wildcard
methods and wildcard headers — and under that policy every origin, every
method and every header passes the CORS checks, so no request is rejected on
origin grounds. -/
theorem c8_single_cors_middleware (sc : LoadScenario) (a : App)
    (h : buildApp (scenarioImport sc) = Except.ok a) :
    a.middleware = [Middleware.cors corsConfig] ∧
    corsConfig.allow_origins = ["*"] ∧
    corsConfig.allow_credentials = true ∧
    corsConfig.allow_methods = ["*"] ∧
    corsConfig.allow_headers = ["*"] ∧
    (∀ origin, corsAllowsOrigin corsConfig origin = true) ∧
    (∀ m, corsAllowsMethod corsConfig m = true) ∧
    (∀ hd, corsAllowsHeader corsConfig hd = true) := by
  rcases buildApp_scenario sc a h with ⟨R, hR, rfl⟩
  exact ⟨rfl, rfl, rfl, rfl, rfl, fun _ => rfl, fun _ => rfl, fun _ => rfl⟩

/-- Claim C8 witness: the middleware stack after a concrete load failure. -/
theorem c8_single_cors_middleware_witness :
    appOnFailure.middleware = [Middleware.cors corsConfig] :=
  (c8_single_cors_middleware
    (LoadScenario.raisesDuringLoad { derivesException := true, msg := "x" })
    appOnFailure rfl).1

/-- Claim C10: the handlers of `GET /`, `GET /health` and `GET /swagger` are
deterministic constants: for any two startup outcomes and any two request
contexts (covering headers, query parameters, body and environment), each of
the three endpoints produces the identical response. -/
theorem c10_inline_handlers_deterministic (sc1 sc2 : LoadScenario) (a1 a2 : App)
    (h1 : buildApp (scenarioImport sc1) = Except.ok a1)
    (h2 : buildApp (scenarioImport sc2) = Except.ok a2)
    (req1 req2 : RequestCtx) :
    handleGET a1 "/" req1 = handleGET a2 "/" req2 ∧
    handleGET a1 "/health" req1 = handleGET a2 "/health" req2 ∧
    handleGET a1 "/swagger" req1 = handleGET a2 "/swagger" req2 := by
  rcases buildApp_scenario sc1 a1 h1 with ⟨R1, hR1, rfl⟩
  rcases buildApp_scenario sc2 a2 h2 with ⟨R2, hR2, rfl⟩
  refine ⟨?_, ?_, ?_⟩
  · rw [handleGET_built R1 hR1 "/" (by decide) req1,
      handleGET_built R2 hR2 "/" (by decide) req2]
    rfl
  · rw [handleGET_built R1 hR1 "/health" (by decide) req1,
      handleGET_built R2 hR2 "/health" (by decide) req2]
    rfl
  · rw [handleGET_built R1 hR1 "/swagger" (by decide) req1,
      handleGET_built R2 hR2 "/swagger" (by decide) req2]
    rfl

/-- Claim C10 witness: the root response agrees between a successful load and a
failed load, at two distinct request contexts. -/
theorem c10_inline_handlers_deterministic_witness :
    handleGET (addInlineEndpoints (include_router baseApp (specTestRouter [])))
        "/" sampleRequest =
      handleGET appOnFailure "/" sampleRequest2 :=
  (c10_inline_handlers_deterministic (LoadScenario.loads [])
    (LoadScenario.raisesDuringLoad { derivesException := true, msg := "x" })
    (addInlineEndpoints (include_router baseApp (specTestRouter [])))
    appOnFailure rfl rfl sampleRequest sampleRequest2).1

end Backend
